import Mathlib

/-!
Verification of the subscription-broadcast core of `server_fixed.py`.

The server keeps two module-level Python dicts:
  * `connected_clients    : sid -> {connected_at, ip}`   (the Connection Registry)
  * `client_subscriptions : sid -> set of topic strings` (the Subscription Table)

We embed Python dicts as insertion-ordered association lists with the exact
semantics of `d[k] = v` (replace in place, else append), `del d[k]`, `k in d`
and `d.get(k)`, and Python sets of strings as duplicate-free lists with
`s.add(x)` appending only when absent.  Timestamps (`datetime.now()`,
`time.time()`) and the PNG bytes produced by PIL are opaque inputs, passed in
as parameters; everything else is translated line by line from the source.
-/

namespace Server

/-- Python dict with string keys, as an insertion-ordered association list. -/
abbrev Dict (α : Type) := List (String × α)

/-- `d.get(k)` / `d[k]` lookup. -/
def dictLookup (k : String) : Dict α → Option α
  | [] => none
  | (k', v) :: rest => if k' = k then some v else dictLookup k rest

/-- `k in d`. -/
def dictMem (k : String) (d : Dict α) : Bool :=
  (dictLookup k d).isSome

/-- `d[k] = v`: replaces the value in place when the key exists (Python dicts
keep the original insertion position), otherwise appends. -/
def dictSet (k : String) (v : α) : Dict α → Dict α
  | [] => [(k, v)]
  | (k', v') :: rest => if k' = k then (k, v) :: rest else (k', v') :: dictSet k v rest

/-- `del d[k]` (in the source always guarded by `k in d`). -/
def dictDel (k : String) : Dict α → Dict α
  | [] => []
  | (k', v') :: rest => if k' = k then rest else (k', v') :: dictDel k rest

/-- Python `set` of strings: duplicate-free list; `s.add(x)` appends only when
`x` is absent. -/
def setAdd (x : String) (s : List String) : List String :=
  if s.contains x then s else s ++ [x]

/-- One value of `connected_clients`: `{'connected_at': ..., 'ip': ...}`.
The timestamp is an opaque tick count, the address an opaque string. -/
structure ConnInfo where
  connected_at : Nat
  ip : String
deriving DecidableEq, Repr

/-- The shared server state: the two module-level dicts. -/
structure ServerState where
  connected_clients : Dict ConnInfo
  client_subscriptions : Dict (List String)
deriving DecidableEq, Repr

/-- Module initialisation: both dicts start empty. -/
def initialState : ServerState := ⟨[], []⟩

/-- The dict returned by `generate_test_image` (PNG generation by PIL is
opaque: the unix time `t`, the base64 string `b64` and the ISO timestamp `ts`
are inputs; the name format and the dimensions 400x300 are from the source). -/
structure ImageData where
  img_name : String
  base_64_img : String
  timestamp : String
  width : Nat
  height : Nat
deriving DecidableEq, Repr

def generate_test_image (t : Nat) (b64 ts : String) : ImageData :=
  { img_name := "test_image_" ++ toString t ++ ".png"
    base_64_img := b64
    timestamp := ts
    width := 400
    height := 300 }

/-- Payload of an outbound socket message (one constructor per `emit` call in
the source). -/
inductive Payload where
  | welcome (message server_time client_id : String)
  | subscription_confirmed (topic status : String)
  | request_image_reply (type : String) (image_data : ImageData)
  | stream_frames (title frame_name frame_data : String)
deriving DecidableEq, Repr

/-- One outbound `emit`/`socketio.emit(..., room=sid)`: target connection,
event tag, payload. -/
structure Emit where
  sid : String
  event : String
  payload : Payload
deriving DecidableEq, Repr

/-- `handle_connect`: unconditionally stores a fresh record in both dicts and
sends the welcome message. -/
def handle_connect (sid : String) (now : Nat) (ip serverTime : String)
    (st : ServerState) : ServerState × List Emit :=
  ({ connected_clients := dictSet sid ⟨now, ip⟩ st.connected_clients
     client_subscriptions := dictSet sid [] st.client_subscriptions },
   [⟨sid, "welcome",
     .welcome "Connected to Socket.IO server" serverTime sid⟩])

/-- `handle_disconnect`: deletes the `sid` entry from each dict when present. -/
def handle_disconnect (sid : String) (st : ServerState) : ServerState :=
  { connected_clients :=
      if dictMem sid st.connected_clients then dictDel sid st.connected_clients
      else st.connected_clients
    client_subscriptions :=
      if dictMem sid st.client_subscriptions then dictDel sid st.client_subscriptions
      else st.client_subscriptions }

/-- Argument of the `subscribe` event: a bare string or a dict with an
optional `topic` field. -/
inductive SubscribeData where
  | str (s : String)
  | obj (topic : Option String)
deriving DecidableEq, Repr

/-- `topic = data if isinstance(data, str) else data.get('topic', '')`. -/
def subTopic : SubscribeData → String
  | .str s => s
  | .obj t => t.getD ""

/-- `handle_subscribe`: creates an empty set when `sid` has no entry, adds the
topic, and unconditionally sends the confirmation. -/
def handle_subscribe (sid : String) (data : SubscribeData)
    (st : ServerState) : ServerState × List Emit :=
  let topic := subTopic data
  let subs :=
    match dictLookup sid st.client_subscriptions with
    | none => ([] : List String)
    | some s => s
  ({ st with client_subscriptions :=
      dictSet sid (setAdd topic subs) st.client_subscriptions },
   [⟨sid, "subscription_confirmed", .subscription_confirmed topic "subscribed"⟩])

/-- Argument of the `request_image` event: `falsy` covers `None` and the empty
dict (both fail Python's `if data` test); `obj` is a truthy dict with its
optional `type` and `message` fields. -/
inductive ReqImageData where
  | falsy
  | obj (type message : Option String)
deriving DecidableEq, Repr

/-- `handle_request_image`: replies with a fresh image only when the payload
is truthy and its `type` is `"request"`; feedback and anything else produce no
emission.  It never touches the two dicts. -/
def handle_request_image (sid : String) (data : ReqImageData)
    (t : Nat) (b64 ts : String) : List Emit :=
  match data with
  | .obj ty _ =>
    if ty = some "request" then
      [⟨sid, "request_image",
        .request_image_reply "response" (generate_test_image t b64 ts)⟩]
    else []
  | .falsy => []

/-! ## The broadcast loop

`broadcast_frames` runs forever.  One iteration of its `while True` body is a
tick: the whole body sits inside a single `try`, so an exception raised by
`socketio.emit` for one member aborts the rest of that tick's fan-out loop and
skips `i += 1`; the `except` clause logs and the loop continues with the next
tick.  We model which emits raise by a list `fails` of connection ids whose
send raises. -/

/-- `[s for s in client_subscriptions.values() if topic in s]`, keyed:
the ids whose subscription set contains `topic`, in dict order. -/
def membersOf (topic : String) (subs : Dict (List String)) : List String :=
  (subs.filter fun kv => kv.2.contains topic).map Prod.fst

/-- The fan-out `for` loop over `client_subscriptions.items()`: emits the
frame to each member subscribed to `'stream_frames'` until a send raises;
returns the emits that happened and whether an exception escaped the loop. -/
def fanOut (frameName frameData : String) (fails : List String) :
    Dict (List String) → List Emit × Bool
  | [] => ([], false)
  | (sid, topics) :: rest =>
    if topics.contains "stream_frames" then
      if fails.contains sid then ([], true)
      else
        let r := fanOut frameName frameData fails rest
        (⟨sid, "stream_frames", .stream_frames "send_frames" frameName frameData⟩ :: r.1,
         r.2)
    else fanOut frameName frameData fails rest

/-- Result of one tick: the emits that went out, how many times
`generate_test_image` was called, the value of `i` after the tick, and
whether an exception was caught by the `except` clause. -/
structure TickResult where
  emits : List Emit
  producerCalls : Nat
  nextSeq : Nat
  failed : Bool
deriving DecidableEq, Repr

/-- One iteration of the `while True` body of `broadcast_frames`, with
counter value `i`; `t`, `b64`, `ts` feed `generate_test_image`. -/
def broadcast_tick (st : ServerState) (i t : Nat) (b64 ts : String)
    (fails : List String) : TickResult :=
  if st.connected_clients.isEmpty then
    ⟨[], 0, i, false⟩
  else
    let img := generate_test_image t b64 ts
    let frameName := "test_frame_" ++ toString i
    let r := fanOut frameName img.base_64_img fails st.client_subscriptions
    ⟨r.1, 1, if r.2 then i else i + 1, r.2⟩

/-- The environment-supplied inputs of one tick: the shared state as the tick
observes it, the opaque image inputs, and the ids whose send raises. -/
structure TickInput where
  st : ServerState
  t : Nat
  b64 : String
  ts : String
  fails : List String
deriving DecidableEq, Repr

/-- The sequence numbers embedded in the frame names that a run of the
scheduler produces, in production order, starting from counter `i`. -/
def runFrameSeqs (i : Nat) : List TickInput → List Nat
  | [] => []
  | tin :: rest =>
    let r := broadcast_tick tin.st i tin.t tin.b64 tin.ts tin.fails
    (if r.producerCalls = 0 then ([] : List Nat) else [i]) ++ runFrameSeqs r.nextSeq rest

/-! ## Event sequences -/

/-- One inbound lifecycle event, as dispatched by the router. -/
inductive Event where
  | connect (sid : String) (now : Nat) (ip serverTime : String)
  | disconnect (sid : String)
  | subscribe (sid : String) (data : SubscribeData)
deriving DecidableEq, Repr

/-- The state mutation one event performs. -/
def stepState (st : ServerState) : Event → ServerState
  | .connect sid now ip serverTime => (handle_connect sid now ip serverTime st).1
  | .disconnect sid => handle_disconnect sid st
  | .subscribe sid data => (handle_subscribe sid data st).1

/-- Handling a sequence of events in order. -/
def runEvents (st : ServerState) (evs : List Event) : ServerState :=
  evs.foldl stepState st

/-- The Registry/Table invariant: an id has a Subscription Table entry iff it
has a Connection Registry entry. -/
def Inv (st : ServerState) : Prop :=
  ∀ sid, dictMem sid st.connected_clients = dictMem sid st.client_subscriptions

/-- Guard a correct transport layer provides: a `subscribe` event only comes
from a connection that is currently registered. -/
def eventOk (st : ServerState) : Event → Bool
  | .subscribe sid _ => dictMem sid st.connected_clients
  | _ => true

/-- A sequence is transport-valid when every `subscribe` event is for an id
registered at the moment the event is handled. -/
def transportValid (st : ServerState) : List Event → Bool
  | [] => true
  | ev :: rest => eventOk st ev && transportValid (stepState st ev) rest

/-- Both dicts have duplicate-free key lists (Python dict keys are unique). -/
def NodupKeys (st : ServerState) : Prop :=
  (st.connected_clients.map Prod.fst).Nodup ∧
  (st.client_subscriptions.map Prod.fst).Nodup

/-! ## Dictionary and set lemmas -/

theorem dictLookup_dictSet_self (k : String) (v : α) (d : Dict α) :
    dictLookup k (dictSet k v d) = some v := by
  induction d with
  | nil => simp [dictSet, dictLookup]
  | cons hd tl ih =>
    by_cases h : hd.1 = k
    · simp [dictSet, dictLookup, h]
    · simp [dictSet, dictLookup, h, ih]

theorem dictLookup_dictSet_ne (h : x ≠ k) (v : α) (d : Dict α) :
    dictLookup x (dictSet k v d) = dictLookup x d := by
  have hkx : ¬(k = x) := fun hh => h hh.symm
  induction d with
  | nil => simp [dictSet, dictLookup, hkx]
  | cons hd tl ih =>
    obtain ⟨k', v'⟩ := hd
    by_cases hk : k' = k
    · subst hk
      simp only [dictSet, if_pos rfl, dictLookup]
      rw [if_neg hkx, if_neg hkx]
    · simp only [dictSet, if_neg hk, dictLookup]
      rw [ih]

theorem dictLookup_dictDel_ne (h : x ≠ k) (d : Dict α) :
    dictLookup x (dictDel k d) = dictLookup x d := by
  have hkx : ¬(k = x) := fun hh => h hh.symm
  induction d with
  | nil => rfl
  | cons hd tl ih =>
    obtain ⟨k', v'⟩ := hd
    by_cases hk : k' = k
    · subst hk
      simp [dictDel, dictLookup, hkx]
    · simp only [dictDel, if_neg hk, dictLookup]
      rw [ih]

theorem dictMem_dictSet_self (k : String) (v : α) (d : Dict α) :
    dictMem k (dictSet k v d) = true := by
  simp [dictMem, dictLookup_dictSet_self]

theorem dictMem_dictSet_ne (h : x ≠ k) (v : α) (d : Dict α) :
    dictMem x (dictSet k v d) = dictMem x d := by
  simp [dictMem, dictLookup_dictSet_ne h]

theorem dictMem_dictDel_ne (h : x ≠ k) (d : Dict α) :
    dictMem x (dictDel k d) = dictMem x d := by
  simp [dictMem, dictLookup_dictDel_ne h]

theorem dictMem_eq_keys_mem (x : String) (d : Dict α) :
    dictMem x d = true ↔ x ∈ d.map Prod.fst := by
  induction d with
  | nil => simp [dictMem, dictLookup]
  | cons hd tl ih =>
    obtain ⟨k', v'⟩ := hd
    simp only [dictMem] at ih
    by_cases h : k' = x
    · subst h
      simp [dictMem, dictLookup]
    · simp only [dictMem, dictLookup, if_neg h, List.map_cons, List.mem_cons, ih]
      constructor
      · exact fun hm => Or.inr hm
      · rintro (rfl | hm)
        · exact absurd rfl h
        · exact hm

theorem dictMem_dictDel_self {α : Type} (k : String) (d : Dict α)
    (hnd : (d.map Prod.fst).Nodup) : dictMem k (dictDel k d) = false := by
  induction d with
  | nil => rfl
  | cons hd tl ih =>
    obtain ⟨k', v'⟩ := hd
    simp only [List.map_cons, List.nodup_cons] at hnd
    by_cases h : k' = k
    · subst h
      simp only [dictDel, if_pos rfl]
      rw [Bool.eq_false_iff]
      intro hmem
      exact hnd.1 ((dictMem_eq_keys_mem _ _).1 hmem)
    · simp only [dictDel, if_neg h, dictMem, dictLookup]
      exact ih hnd.2

theorem keys_mem_dictSet (x k : String) (v : α) (d : Dict α) :
    x ∈ (dictSet k v d).map Prod.fst ↔ x = k ∨ x ∈ d.map Prod.fst := by
  induction d with
  | nil => simp [dictSet]
  | cons hd tl ih =>
    by_cases h : hd.1 = k
    · subst h
      simp [dictSet]
    · simp only [dictSet, if_neg h, List.map_cons, List.mem_cons, ih]
      tauto

theorem keys_nodup_dictSet (k : String) (v : α) (d : Dict α)
    (hnd : (d.map Prod.fst).Nodup) : ((dictSet k v d).map Prod.fst).Nodup := by
  induction d with
  | nil => simp [dictSet]
  | cons hd tl ih =>
    obtain ⟨k', v'⟩ := hd
    simp only [List.map_cons, List.nodup_cons] at hnd
    by_cases h : k' = k
    · subst h
      simpa [dictSet] using hnd
    · simp only [dictSet, if_neg h, List.map_cons, List.nodup_cons]
      refine ⟨?_, ih hnd.2⟩
      rw [keys_mem_dictSet]
      rintro (rfl | hmem)
      · exact h rfl
      · exact hnd.1 hmem

theorem dictDel_sublist (k : String) (d : Dict α) : (dictDel k d).Sublist d := by
  induction d with
  | nil => exact List.Sublist.refl _
  | cons hd tl ih =>
    obtain ⟨k', v'⟩ := hd
    by_cases h : k' = k
    · simp only [dictDel, if_pos h]
      exact List.sublist_cons_of_sublist _ (List.Sublist.refl tl)
    · simp only [dictDel, if_neg h]
      exact List.Sublist.cons₂ _ ih

theorem keys_nodup_dictDel (k : String) (d : Dict α)
    (hnd : (d.map Prod.fst).Nodup) : ((dictDel k d).map Prod.fst).Nodup :=
  List.Nodup.sublist (List.Sublist.map Prod.fst (dictDel_sublist k d)) hnd

theorem dictSet_dictSet_self (k : String) (v w : α) (d : Dict α) :
    dictSet k v (dictSet k w d) = dictSet k v d := by
  induction d with
  | nil => simp [dictSet]
  | cons hd tl ih =>
    by_cases h : hd.1 = k
    · simp [dictSet, h]
    · simp [dictSet, h, ih]

theorem setAdd_contains_self (x : String) (s : List String) :
    (setAdd x s).contains x = true := by
  by_cases h : s.contains x
  · simp only [setAdd, if_pos h]
    exact h
  · simp only [setAdd, if_neg h]
    simp

theorem setAdd_setAdd_self (x : String) (s : List String) :
    setAdd x (setAdd x s) = setAdd x s := by
  show (if (setAdd x s).contains x then setAdd x s else setAdd x s ++ [x]) = setAdd x s
  rw [if_pos (setAdd_contains_self x s)]

/-! ## Fan-out and membership lemmas -/

theorem fanOut_no_fails (fn fd : String) (subs : Dict (List String)) :
    fanOut fn fd [] subs =
      ((subs.filter fun kv => kv.2.contains "stream_frames").map
        fun kv => ⟨kv.1, "stream_frames", Payload.stream_frames "send_frames" fn fd⟩,
       false) := by
  induction subs with
  | nil => rfl
  | cons hd tl ih =>
    obtain ⟨sid, topics⟩ := hd
    by_cases h : "stream_frames" ∈ topics
    · simp [fanOut, h, ih, List.filter_cons]
    · simp [fanOut, h, ih, List.filter_cons]

theorem membersOf_subset_keys (topic x : String) (d : Dict (List String))
    (hx : x ∈ membersOf topic d) : x ∈ d.map Prod.fst := by
  simp only [membersOf, List.mem_map] at hx
  obtain ⟨kv, hkv, rfl⟩ := hx
  exact List.mem_map_of_mem Prod.fst (List.mem_of_mem_filter hkv)

theorem count_membersOf_zero (topic x : String) (d : Dict (List String))
    (hx : x ∉ d.map Prod.fst) : (membersOf topic d).count x = 0 :=
  List.count_eq_zero.2 fun hm => hx (membersOf_subset_keys topic x d hm)

theorem count_membersOf_dictSet (sid topic : String) (topics : List String)
    (d : Dict (List String)) (hnd : (d.map Prod.fst).Nodup)
    (htop : topics.contains topic = true) :
    (membersOf topic (dictSet sid topics d)).count sid = 1 := by
  have hm : topic ∈ topics := List.elem_iff.mp htop
  induction d with
  | nil => simp [membersOf, dictSet, List.filter_cons, hm]
  | cons hd tl ih =>
    obtain ⟨k, v⟩ := hd
    simp only [List.map_cons, List.nodup_cons] at hnd
    by_cases h : k = sid
    · subst h
      have h0 : (membersOf topic tl).count k = 0 := count_membersOf_zero topic k tl hnd.1
      simp only [membersOf] at h0
      simp at h0
      simp [dictSet, membersOf, List.filter_cons, hm, List.count_cons_self, h0]
    · have ih' := ih hnd.2
      simp only [membersOf] at ih'
      simp at ih'
      by_cases hv : topic ∈ v
      · simp [dictSet, membersOf, List.filter_cons, h, hv, ih',
          List.count_cons_of_ne (fun hh => h hh.symm)]
      · simp [dictSet, membersOf, List.filter_cons, h, hv, ih']

/-! ## Invariant preservation -/

theorem inv_nodup_step (st : ServerState) (ev : Event)
    (hInv : Inv st) (hN : NodupKeys st) (hok : eventOk st ev = true) :
    Inv (stepState st ev) ∧ NodupKeys (stepState st ev) := by
  cases ev with
  | connect sid now ip serverTime =>
    constructor
    · intro x
      by_cases hx : x = sid
      · subst hx
        simp [stepState, handle_connect, dictMem_dictSet_self]
      · simp [stepState, handle_connect, dictMem_dictSet_ne hx, hInv x]
    · exact ⟨keys_nodup_dictSet _ _ _ hN.1, keys_nodup_dictSet _ _ _ hN.2⟩
  | disconnect sid =>
    constructor
    · intro x
      by_cases hx : x = sid
      · subst hx
        by_cases hc : dictMem x st.connected_clients = true
        · have hs : dictMem x st.client_subscriptions = true := by
            rw [← hInv x]; exact hc
          simp only [stepState, handle_disconnect, hc, hs, if_true]
          rw [dictMem_dictDel_self _ _ hN.1, dictMem_dictDel_self _ _ hN.2]
        · have hs : ¬ dictMem x st.client_subscriptions = true := by
            rw [← hInv x]; exact hc
          simp only [stepState, handle_disconnect, hc, hs, if_false]
          exact hInv x
      · have h1 : dictMem x (handle_disconnect sid st).connected_clients
            = dictMem x st.connected_clients := by
          by_cases hc : dictMem sid st.connected_clients = true
          · simp [handle_disconnect, hc, dictMem_dictDel_ne hx]
          · simp [handle_disconnect, hc]
        have h2 : dictMem x (handle_disconnect sid st).client_subscriptions
            = dictMem x st.client_subscriptions := by
          by_cases hc : dictMem sid st.client_subscriptions = true
          · simp [handle_disconnect, hc, dictMem_dictDel_ne hx]
          · simp [handle_disconnect, hc]
        show dictMem x (handle_disconnect sid st).connected_clients
            = dictMem x (handle_disconnect sid st).client_subscriptions
        rw [h1, h2]
        exact hInv x
    · constructor
      · by_cases hc : dictMem sid st.connected_clients = true
        · simpa [stepState, handle_disconnect, hc] using
            keys_nodup_dictDel sid _ hN.1
        · simpa [stepState, handle_disconnect, hc] using hN.1
      · by_cases hc : dictMem sid st.client_subscriptions = true
        · simpa [stepState, handle_disconnect, hc] using
            keys_nodup_dictDel sid _ hN.2
        · simpa [stepState, handle_disconnect, hc] using hN.2
  | subscribe sid data =>
    have hc : dictMem sid st.connected_clients = true := hok
    constructor
    · intro x
      by_cases hx : x = sid
      · subst hx
        simp [stepState, handle_subscribe, dictMem_dictSet_self, hc]
      · simp [stepState, handle_subscribe, dictMem_dictSet_ne hx, hInv x]
    · exact ⟨hN.1, keys_nodup_dictSet _ _ _ hN.2⟩

theorem inv_nodup_run (evs : List Event) (st : ServerState)
    (hInv : Inv st) (hN : NodupKeys st) (hv : transportValid st evs = true) :
    Inv (runEvents st evs) ∧ NodupKeys (runEvents st evs) := by
  induction evs generalizing st with
  | nil => exact ⟨hInv, hN⟩
  | cons ev rest ih =>
    simp only [transportValid, Bool.and_eq_true] at hv
    have hstep := inv_nodup_step st ev hInv hN hv.1
    exact ih (stepState st ev) hstep.1 hstep.2 hv.2

theorem transportValid_append (st : ServerState) (p q : List Event) :
    transportValid st (p ++ q)
      = (transportValid st p && transportValid (runEvents st p) q) := by
  induction p generalizing st with
  | nil => simp [transportValid, runEvents]
  | cons ev rest ih =>
    simp [transportValid, runEvents, List.foldl_cons, ih, Bool.and_assoc]

/-! ## Repeated subscription -/

/-- The confirmation message the router sends on a `subscribe` event. -/
def confirmation (sid topic : String) : Emit :=
  ⟨sid, "subscription_confirmed", .subscription_confirmed topic "subscribed"⟩

/-- `n` consecutive `subscribe` events for the same id and payload: the final
state together with all messages emitted along the way. -/
def subscribeN (sid : String) (data : SubscribeData) :
    Nat → ServerState → ServerState × List Emit
  | 0, st => (st, [])
  | n + 1, st =>
    let r := handle_subscribe sid data st
    let rest := subscribeN sid data n r.1
    (rest.1, r.2 ++ rest.2)

theorem handle_subscribe_idem (sid : String) (data : SubscribeData)
    (st : ServerState) :
    (handle_subscribe sid data (handle_subscribe sid data st).1).1
      = (handle_subscribe sid data st).1 := by
  simp [handle_subscribe, dictLookup_dictSet_self, setAdd_setAdd_self,
    dictSet_dictSet_self]

theorem subscribeN_state_succ (sid : String) (data : SubscribeData) (n : Nat)
    (st : ServerState) :
    (subscribeN sid data (n + 1) st).1 = (handle_subscribe sid data st).1 := by
  induction n generalizing st with
  | zero => rfl
  | succ m ih =>
    show (subscribeN sid data (m + 1) (handle_subscribe sid data st).1).1
      = (handle_subscribe sid data st).1
    rw [ih]
    exact handle_subscribe_idem sid data st

theorem subscribeN_emits (sid : String) (data : SubscribeData) (n : Nat)
    (st : ServerState) :
    (subscribeN sid data n st).2
      = List.replicate n (confirmation sid (subTopic data)) := by
  induction n generalizing st with
  | zero => rfl
  | succ m ih =>
    show (handle_subscribe sid data st).2
        ++ (subscribeN sid data m (handle_subscribe sid data st).1).2
      = List.replicate (m + 1) (confirmation sid (subTopic data))
    rw [ih]
    rfl

/-! ## Tick-shape lemmas -/

theorem broadcast_tick_skip (st : ServerState) (i t : Nat) (b64 ts : String)
    (fails : List String) (h : st.connected_clients = []) :
    broadcast_tick st i t b64 ts fails = ⟨[], 0, i, false⟩ := by
  simp [broadcast_tick, h]

theorem broadcast_tick_no_fails (st : ServerState) (i t : Nat) (b64 ts : String)
    (h : st.connected_clients.isEmpty = false) :
    broadcast_tick st i t b64 ts []
      = ⟨(st.client_subscriptions.filter fun kv => kv.2.contains "stream_frames").map
           (fun kv =>
             ⟨kv.1, "stream_frames",
              Payload.stream_frames "send_frames" ("test_frame_" ++ toString i) b64⟩),
         1, i + 1, false⟩ := by
  simp [broadcast_tick, h, fanOut_no_fails, generate_test_image]

theorem broadcast_tick_nextSeq_ge (st : ServerState) (i t : Nat) (b64 ts : String)
    (fails : List String) : i ≤ (broadcast_tick st i t b64 ts fails).nextSeq := by
  by_cases h : st.connected_clients.isEmpty
  · simp [broadcast_tick, h]
  · simp [broadcast_tick, h]
    split <;> omega

theorem runFrameSeqs_ge (ticks : List TickInput) :
    ∀ i x, x ∈ runFrameSeqs i ticks → i ≤ x := by
  induction ticks with
  | nil => simp [runFrameSeqs]
  | cons tin rest ih =>
    intro i x hx
    simp only [runFrameSeqs, List.mem_append] at hx
    rcases hx with hx | hx
    · by_cases h : (broadcast_tick tin.st i tin.t tin.b64 tin.ts tin.fails).producerCalls = 0
      · simp [h] at hx
      · simp [h] at hx
        omega
    · exact le_trans (broadcast_tick_nextSeq_ge tin.st i tin.t tin.b64 tin.ts tin.fails)
        (ih _ x hx)

theorem fanOut_delivers_before_failure (fn fd sid : String) (topics : List String)
    (pre post : Dict (List String)) (fails : List String)
    (hsub : "stream_frames" ∈ topics) (hok : sid ∉ fails)
    (hpre : ∀ kv ∈ pre, kv.1 ∉ fails) :
    (⟨sid, "stream_frames", Payload.stream_frames "send_frames" fn fd⟩ : Emit)
      ∈ (fanOut fn fd fails (pre ++ (sid, topics) :: post)).1 := by
  induction pre with
  | nil => simp [fanOut, hsub, hok]
  | cons kv tl ih =>
    obtain ⟨k, v⟩ := kv
    have hk : k ∉ fails := hpre (k, v) (List.mem_cons_self _ _)
    have ih' := ih fun kv hkv => hpre kv (List.mem_cons_of_mem _ hkv)
    by_cases hv : "stream_frames" ∈ v
    · simp [fanOut, hv, hk, ih']
    · simp [fanOut, hv, ih']

theorem runFrameSeqs_pairwise (ticks : List TickInput)
    (hf : ticks.all (fun tin => tin.fails.isEmpty) = true) :
    ∀ i, List.Pairwise (fun a b => a < b) (runFrameSeqs i ticks) := by
  induction ticks with
  | nil =>
    intro i
    simp [runFrameSeqs]
  | cons tin rest ih =>
    intro i
    simp only [List.all_cons, Bool.and_eq_true] at hf
    have hfe : tin.fails = [] := by simpa using hf.1
    by_cases h : tin.st.connected_clients.isEmpty
    · have hlst : tin.st.connected_clients = [] := by simpa using h
      have hbt := broadcast_tick_skip tin.st i tin.t tin.b64 tin.ts tin.fails hlst
      simp only [runFrameSeqs, hbt]
      simpa using ih hf.2 i
    · have h' : tin.st.connected_clients.isEmpty = false := by simpa using h
      have hbt := broadcast_tick_no_fails tin.st i tin.t tin.b64 tin.ts h'
      simp only [runFrameSeqs]
      rw [hfe, hbt]
      show List.Pairwise (fun a b => a < b)
        ((if (1 : Nat) = 0 then ([] : List Nat) else [i]) ++ runFrameSeqs (i + 1) rest)
      rw [if_neg (by omega : ¬ (1 : Nat) = 0), List.singleton_append, List.pairwise_cons]
      constructor
      · intro b hb
        have := runFrameSeqs_ge rest (i + 1) b hb
        omega
      · exact ih hf.2 (i + 1)

/-! ## Claims -/

/-- C1, counterexample: handling a `subscribe` event for an id that is not in
the Connection Registry creates a Subscription Table entry with no matching
registry entry, so the two tables do not stay in sync for such sequences. -/
theorem orphan_subscription_counterexample :
    dictMem "X" (runEvents initialState
        [Event.subscribe "X" (SubscribeData.str "news")]).client_subscriptions = true
      ∧ dictMem "X" (runEvents initialState
        [Event.subscribe "X" (SubscribeData.str "news")]).connected_clients = false := by
  decide

/-- C1, amended: starting from the initial empty state, for every sequence of
connect/disconnect/subscribe events in which each `subscribe` event's id is
registered when the event is handled, at every point (every event-sequence
position) an id has a Subscription Table entry iff it has a Connection
Registry entry. -/
theorem registry_table_invariant_transport_valid (evs p q : List Event)
    (hv : transportValid initialState evs = true) (hpq : evs = p ++ q) :
    Inv (runEvents initialState p) := by
  subst hpq
  rw [transportValid_append] at hv
  have hp : transportValid initialState p = true := (Bool.and_eq_true _ _).mp hv |>.1
  exact (inv_nodup_run p initialState (fun _ => rfl)
    ⟨List.nodup_nil, List.nodup_nil⟩ hp).1

theorem registry_table_invariant_transport_valid_witness :
    transportValid initialState
        [Event.connect "A" 0 "ip" "T",
         Event.subscribe "A" (SubscribeData.str "stream_frames"),
         Event.disconnect "A"] = true
      ∧ Inv (runEvents initialState
        [Event.connect "A" 0 "ip" "T",
         Event.subscribe "A" (SubscribeData.str "stream_frames")]) :=
  ⟨by decide,
   registry_table_invariant_transport_valid
     [Event.connect "A" 0 "ip" "T",
      Event.subscribe "A" (SubscribeData.str "stream_frames"),
      Event.disconnect "A"]
     [Event.connect "A" 0 "ip" "T",
      Event.subscribe "A" (SubscribeData.str "stream_frames")]
     [Event.disconnect "A"] (by decide) rfl⟩

/-- C2, counterexample: with clients A and B both subscribed to
`stream_frames` and A's send raising, the tick's fan-out aborts before B, so
B — a remaining member of the snapshot — receives nothing in that tick. -/
theorem send_failure_aborts_tick_counterexample :
    (broadcast_tick
        ⟨[("A", ⟨0, "ip"⟩), ("B", ⟨0, "ip"⟩)],
         [("A", ["stream_frames"]), ("B", ["stream_frames"])]⟩
        0 5 "IMG" "TS" ["A"]).failed = true
      ∧ (broadcast_tick
        ⟨[("A", ⟨0, "ip"⟩), ("B", ⟨0, "ip"⟩)],
         [("A", ["stream_frames"]), ("B", ["stream_frames"])]⟩
        0 5 "IMG" "TS" ["A"]).emits = [] := by
  decide

/-- C2, amended: a send failure is caught at the tick level, so during the
affected tick every subscribed member whose table entry precedes the first
failing subscribed member still receives the frames, while delivery to the
members after the failing one is aborted for that tick (the loop itself
continues with the next tick). -/
theorem send_failure_delivery_up_to_failure (fn fd sid : String)
    (topics : List String) (pre post : Dict (List String)) (fails : List String)
    (hsub : "stream_frames" ∈ topics) (hok : sid ∉ fails)
    (hpre : ∀ kv ∈ pre, kv.1 ∉ fails) :
    (⟨sid, "stream_frames", Payload.stream_frames "send_frames" fn fd⟩ : Emit)
      ∈ (fanOut fn fd fails (pre ++ (sid, topics) :: post)).1 :=
  fanOut_delivers_before_failure fn fd sid topics pre post fails hsub hok hpre

theorem send_failure_delivery_up_to_failure_witness :
    ("stream_frames" ∈ ["stream_frames"]
      ∧ "B" ∉ ["C"]
      ∧ (∀ kv ∈ ([("P", ["stream_frames"])] : Dict (List String)), kv.1 ∉ ["C"]))
      ∧ (⟨"B", "stream_frames",
          Payload.stream_frames "send_frames" "test_frame_0" "IMG"⟩ : Emit)
        ∈ (fanOut "test_frame_0" "IMG" ["C"]
            ([("P", ["stream_frames"])]
              ++ ("B", ["stream_frames"]) :: [("C", ["stream_frames"])])).1 :=
  ⟨⟨by decide, by decide, by decide⟩,
   send_failure_delivery_up_to_failure "test_frame_0" "IMG" "B" ["stream_frames"]
     [("P", ["stream_frames"])] [("C", ["stream_frames"])] ["C"]
     (by decide) (by decide) (by decide)⟩

/-- The state after client X connects and subscribes to topic "news". -/
def dupConnectState : ServerState :=
  runEvents initialState
    [Event.connect "X" 1 "addr1" "T1", Event.subscribe "X" (SubscribeData.str "news")]

/-- C3, counterexample: a second connect for an id already in the Registry is
not rejected and raises nothing: it replaces the existing Connection record
(new timestamp and address) and resets the id's subscription set to empty. -/
theorem duplicate_connect_overwrites_counterexample :
    dictMem "X" dupConnectState.connected_clients = true
      ∧ dictLookup "X" dupConnectState.connected_clients = some ⟨1, "addr1"⟩
      ∧ dictLookup "X" dupConnectState.client_subscriptions = some ["news"]
      ∧ dictLookup "X"
          (handle_connect "X" 2 "addr2" "T2" dupConnectState).1.connected_clients
        = some ⟨2, "addr2"⟩
      ∧ dictLookup "X"
          (handle_connect "X" 2 "addr2" "T2" dupConnectState).1.client_subscriptions
        = some [] := by
  decide

/-- C3, amended: a second connect with an id already present is accepted, not
rejected: `handle_connect` performs no duplicate check, unconditionally
overwrites the Connection record with the fresh timestamp and origin address,
resets the id's subscription set to empty, and emits the welcome message. -/
theorem duplicate_connect_overwrites (st : ServerState) (sid : String)
    (now : Nat) (ip serverTime : String) :
    dictLookup sid (handle_connect sid now ip serverTime st).1.connected_clients
        = some ⟨now, ip⟩
      ∧ dictLookup sid (handle_connect sid now ip serverTime st).1.client_subscriptions
        = some []
      ∧ (handle_connect sid now ip serverTime st).2
        = [⟨sid, "welcome",
            Payload.welcome "Connected to Socket.IO server" serverTime sid⟩] :=
  ⟨dictLookup_dictSet_self sid _ st.connected_clients,
   dictLookup_dictSet_self sid _ st.client_subscriptions, rfl⟩

/-- One scheduler tick observing client A subscribed to `stream_frames`,
whose send to A raises. -/
def failTick : TickInput :=
  ⟨⟨[("A", ⟨0, "ip"⟩)], [("A", ["stream_frames"])]⟩, 10, "IMG", "TS", ["A"]⟩

/-- The same observation with no send failure. -/
def okTick : TickInput :=
  ⟨⟨[("A", ⟨0, "ip"⟩)], [("A", ["stream_frames"])]⟩, 11, "IMG2", "TS2", []⟩

/-- A tick observing an empty Connection Registry. -/
def idleTick : TickInput :=
  ⟨⟨[], [("A", ["stream_frames"])]⟩, 12, "IMG3", "TS3", []⟩

/-- C4, counterexample: a tick whose send raises skips `i += 1`, so the next
produced frame reuses the same sequence number: the run produces frame
sequence numbers `[0, 0]`, which are not strictly increasing. -/
theorem frame_seq_repeats_counterexample :
    runFrameSeqs 0 [failTick, okTick] = [0, 0]
      ∧ ¬ List.Pairwise (fun a b => a < b) (runFrameSeqs 0 [failTick, okTick]) := by
  decide

/-- C4, amended: across scheduler ticks none of which hits a send failure,
the sequence numbers embedded in the produced frame names are strictly
increasing (a pair of frames produced by a run in which some tick's send
raised may share a sequence number, because the failed tick does not advance
the counter; frames from direct image requests are named by wall-clock
timestamp and carry no sequence number at all). -/
theorem frame_seq_strict_mono_no_failures (i : Nat) (ticks : List TickInput)
    (hf : ticks.all (fun tin => tin.fails.isEmpty) = true) :
    List.Pairwise (fun a b => a < b) (runFrameSeqs i ticks) :=
  runFrameSeqs_pairwise ticks hf i

theorem frame_seq_strict_mono_no_failures_witness :
    ([okTick, idleTick, okTick].all (fun tin => tin.fails.isEmpty) = true)
      ∧ List.Pairwise (fun a b => a < b)
          (runFrameSeqs 0 [okTick, idleTick, okTick]) :=
  ⟨by decide, frame_seq_strict_mono_no_failures 0 [okTick, idleTick, okTick] (by decide)⟩

/-- C5: subscribing the same id to the same topic `n ≥ 1` times leaves the
state identical to subscribing once, the id appears in `MembersOf(topic)`
exactly once, and the confirmation message is emitted on every one of the `n`
calls (and none of them raises: the handler is a total function). -/
theorem subscribe_idempotent (st : ServerState) (sid : String)
    (data : SubscribeData) (n : Nat) (hn : 1 ≤ n)
    (hnd : (st.client_subscriptions.map Prod.fst).Nodup) :
    (subscribeN sid data n st).1 = (subscribeN sid data 1 st).1
      ∧ (membersOf (subTopic data)
          (subscribeN sid data n st).1.client_subscriptions).count sid = 1
      ∧ (subscribeN sid data n st).2
        = List.replicate n (confirmation sid (subTopic data)) := by
  obtain ⟨m, rfl⟩ : ∃ m, n = m + 1 := ⟨n - 1, by omega⟩
  refine ⟨(subscribeN_state_succ sid data m st).trans
            (subscribeN_state_succ sid data 0 st).symm, ?_,
          subscribeN_emits sid data (m + 1) st⟩
  rw [subscribeN_state_succ]
  exact count_membersOf_dictSet sid (subTopic data) _ st.client_subscriptions hnd
    (setAdd_contains_self _ _)

theorem subscribe_idempotent_witness :
    (1 ≤ 3 ∧ ((initialState).client_subscriptions.map Prod.fst).Nodup)
      ∧ ((subscribeN "A" (SubscribeData.str "stream_frames") 3 initialState).1
          = (subscribeN "A" (SubscribeData.str "stream_frames") 1 initialState).1
        ∧ (membersOf (subTopic (SubscribeData.str "stream_frames"))
            (subscribeN "A" (SubscribeData.str "stream_frames") 3
              initialState).1.client_subscriptions).count "A" = 1
        ∧ (subscribeN "A" (SubscribeData.str "stream_frames") 3 initialState).2
          = List.replicate 3
              (confirmation "A" (subTopic (SubscribeData.str "stream_frames")))) :=
  ⟨⟨by decide, by decide⟩,
   subscribe_idempotent initialState "A" (SubscribeData.str "stream_frames") 3
     (by decide) (by decide)⟩

/-- C6: a scheduler tick that begins while the Connection Registry is empty
calls the Frame Producer zero times and sends nothing, whatever the
Subscription Table holds. -/
theorem empty_registry_tick_skips (st : ServerState) (i t : Nat) (b64 ts : String)
    (fails : List String) (h : st.connected_clients = []) :
    (broadcast_tick st i t b64 ts fails).producerCalls = 0
      ∧ (broadcast_tick st i t b64 ts fails).emits = [] := by
  rw [broadcast_tick_skip st i t b64 ts fails h]
  exact ⟨rfl, rfl⟩

theorem empty_registry_tick_skips_witness :
    ((⟨[], [("A", ["stream_frames"])]⟩ : ServerState).connected_clients = [])
      ∧ (broadcast_tick ⟨[], [("A", ["stream_frames"])]⟩ 7 9 "IMG" "TS" []).producerCalls = 0
      ∧ (broadcast_tick ⟨[], [("A", ["stream_frames"])]⟩ 7 9 "IMG" "TS" []).emits = [] :=
  ⟨rfl,
   empty_registry_tick_skips ⟨[], [("A", ["stream_frames"])]⟩ 7 9 "IMG" "TS" [] rfl⟩

/-- C7, counterexample: a tick that produces a Frame (the producer is called
once) but whose send to the first subscriber raises emits to nobody: id "D"
has `"stream_frames"` in its subscription set yet receives nothing during
that tick, so a frame-producing tick does not always send to exactly the
subscribed connections. -/
theorem producing_tick_misses_subscriber_counterexample :
    (broadcast_tick
        ⟨[("C", ⟨2, "ip3"⟩), ("D", ⟨3, "ip4"⟩)],
         [("C", ["stream_frames"]), ("D", ["stream_frames"])]⟩
        1 6 "IMG4" "TS4" ["C"]).producerCalls = 1
      ∧ dictLookup "D"
          (⟨[("C", ⟨2, "ip3"⟩), ("D", ⟨3, "ip4"⟩)],
            [("C", ["stream_frames"]), ("D", ["stream_frames"])]⟩ :
             ServerState).client_subscriptions = some ["stream_frames"]
      ∧ (broadcast_tick
        ⟨[("C", ⟨2, "ip3"⟩), ("D", ⟨3, "ip4"⟩)],
         [("C", ["stream_frames"]), ("D", ["stream_frames"])]⟩
        1 6 "IMG4" "TS4" ["C"]).emits = [] := by
  decide

/-- C7, amended: a tick that produces a frame and in which no send raises
emits the `stream_frames` event with payload
`{title: "send_frames", data: {frame_name, frame_data}}` exactly to the
connections whose subscription set contains `"stream_frames"`, in table
order, and to no other connection (on a producing tick where a send raises,
delivery stops at the failing member, as the counterexample exhibits). -/
theorem tick_broadcast_exactly_subscribers (st : ServerState) (i t : Nat)
    (b64 ts : String) (h : st.connected_clients.isEmpty = false) :
    (broadcast_tick st i t b64 ts []).emits
      = (st.client_subscriptions.filter fun kv => kv.2.contains "stream_frames").map
          (fun kv => ⟨kv.1, "stream_frames",
            Payload.stream_frames "send_frames" ("test_frame_" ++ toString i) b64⟩) := by
  rw [broadcast_tick_no_fails st i t b64 ts h]

theorem tick_broadcast_exactly_subscribers_witness :
    ((⟨[("A", ⟨0, "ip"⟩), ("B", ⟨0, "ip"⟩)],
       [("A", ["stream_frames"]), ("B", ["chat"])]⟩ :
        ServerState).connected_clients.isEmpty = false)
      ∧ (broadcast_tick
          ⟨[("A", ⟨0, "ip"⟩), ("B", ⟨0, "ip"⟩)],
           [("A", ["stream_frames"]), ("B", ["chat"])]⟩ 4 8 "IMG" "TS" []).emits
        = ((([("A", ["stream_frames"]), ("B", ["chat"])] : Dict (List String)).filter
              fun kv => kv.2.contains "stream_frames").map
            fun kv => ⟨kv.1, "stream_frames",
              Payload.stream_frames "send_frames" ("test_frame_" ++ toString 4) "IMG"⟩) :=
  ⟨rfl,
   tick_broadcast_exactly_subscribers
     ⟨[("A", ⟨0, "ip"⟩), ("B", ⟨0, "ip"⟩)],
      [("A", ["stream_frames"]), ("B", ["chat"])]⟩ 4 8 "IMG" "TS" rfl⟩

/-- The payload cases on which `handle_request_image` replies: a truthy dict
whose `type` field equals `"request"`. -/
def isImageRequest : ReqImageData → Bool
  | .obj ty _ => ty = some "request"
  | .falsy => false

/-- C8: a `request_image` event with `type = "request"` produces exactly one
reply to the requesting connection, tagged `request_image` with
`type = "response"` and an `image_data` frame whose width is 400 and height
300; a `feedback`, empty, or unrecognized payload produces no emission; every
emission the handler makes targets the requesting connection only, and the
handler never touches the two shared dicts. -/
theorem request_image_behavior (sid : String) (data : ReqImageData) (t : Nat)
    (b64 ts : String) :
    handle_request_image sid data t b64 ts
        = (if isImageRequest data then
            [⟨sid, "request_image",
              Payload.request_image_reply "response" (generate_test_image t b64 ts)⟩]
           else [])
      ∧ (generate_test_image t b64 ts).width = 400
      ∧ (generate_test_image t b64 ts).height = 300
      ∧ (handle_request_image sid data t b64 ts).all
          (fun e => decide (e.sid = sid)) = true := by
  cases data with
  | falsy => exact ⟨rfl, rfl, rfl, rfl⟩
  | obj ty msg =>
    by_cases h : ty = some "request"
    · refine ⟨?_, rfl, rfl, ?_⟩
      · simp [handle_request_image, isImageRequest, h]
      · simp [handle_request_image, h]
    · refine ⟨?_, rfl, rfl, ?_⟩
      · simp [handle_request_image, isImageRequest, h]
      · simp [handle_request_image, h]

/-- The state reached by connect X, disconnect X, then a late subscribe from
X: the Subscription Table has an entry for X but the Registry does not. -/
def orphanState : ServerState :=
  runEvents initialState
    [Event.connect "X" 1 "ip" "T", Event.disconnect "X",
     Event.subscribe "X" (SubscribeData.str "news")]

/-- C9, counterexample: in a reachable state where id X is absent from the
Registry but holds a leftover Subscription Table entry, the disconnect
handler is not a no-op on the table: it deletes X's subscription entry. -/
theorem disconnect_unregistered_counterexample :
    dictMem "X" orphanState.connected_clients = false
      ∧ dictLookup "X" orphanState.client_subscriptions = some ["news"]
      ∧ dictLookup "X" (handle_disconnect "X" orphanState).client_subscriptions = none
      ∧ handle_disconnect "X" orphanState ≠ orphanState := by
  decide

/-- C9, amended: for an id absent from the Connection Registry the disconnect
handler raises nothing (it is a total function) and leaves the Registry
unchanged; it leaves the Subscription Table unchanged too — a full no-op —
exactly when the id also has no leftover Subscription Table entry, and
otherwise deletes that leftover entry. -/
theorem disconnect_unregistered_noop (st : ServerState) (sid : String)
    (hc : dictMem sid st.connected_clients = false) :
    (handle_disconnect sid st).connected_clients = st.connected_clients
      ∧ (dictMem sid st.client_subscriptions = false →
          handle_disconnect sid st = st) := by
  constructor
  · simp [handle_disconnect, hc]
  · intro hs
    simp [handle_disconnect, hc, hs]

theorem disconnect_unregistered_noop_witness :
    (dictMem "A"
        (⟨[("B", ⟨0, "ip"⟩)], [("B", [])]⟩ : ServerState).connected_clients = false)
      ∧ ((handle_disconnect "A" ⟨[("B", ⟨0, "ip"⟩)], [("B", [])]⟩).connected_clients
          = (⟨[("B", ⟨0, "ip"⟩)], [("B", [])]⟩ : ServerState).connected_clients
        ∧ (dictMem "A"
            (⟨[("B", ⟨0, "ip"⟩)], [("B", [])]⟩ : ServerState).client_subscriptions = false →
            handle_disconnect "A" ⟨[("B", ⟨0, "ip"⟩)], [("B", [])]⟩
              = ⟨[("B", ⟨0, "ip"⟩)], [("B", [])]⟩)) :=
  ⟨by decide, disconnect_unregistered_noop ⟨[("B", ⟨0, "ip"⟩)], [("B", [])]⟩ "A" (by decide)⟩

/-- C10: for distinct ids A and B, handling a subscribe from A and handling a
disconnect of A leave B's Connection Registry entry and B's subscription set
unchanged: each handler only touches the map entries keyed by its own id. -/
theorem handlers_touch_only_own_id (st : ServerState) (a b : String)
    (data : SubscribeData) (hab : a ≠ b) :
    dictLookup b (handle_subscribe a data st).1.connected_clients
        = dictLookup b st.connected_clients
      ∧ dictLookup b (handle_subscribe a data st).1.client_subscriptions
        = dictLookup b st.client_subscriptions
      ∧ dictLookup b (handle_disconnect a st).connected_clients
        = dictLookup b st.connected_clients
      ∧ dictLookup b (handle_disconnect a st).client_subscriptions
        = dictLookup b st.client_subscriptions := by
  have hba : b ≠ a := fun h => hab h.symm
  refine ⟨rfl, ?_, ?_, ?_⟩
  · exact dictLookup_dictSet_ne hba _ st.client_subscriptions
  · by_cases hc : dictMem a st.connected_clients = true
    · simp [handle_disconnect, hc, dictLookup_dictDel_ne hba]
    · simp [handle_disconnect, hc]
  · by_cases hs : dictMem a st.client_subscriptions = true
    · simp [handle_disconnect, hs, dictLookup_dictDel_ne hba]
    · simp [handle_disconnect, hs]

theorem handlers_touch_only_own_id_witness :
    ("A" ≠ "B")
      ∧ (dictLookup "B" (handle_subscribe "A" (SubscribeData.str "news")
            ⟨[("A", ⟨0, "ip"⟩), ("B", ⟨1, "ip2"⟩)],
             [("A", []), ("B", ["chat"])]⟩).1.connected_clients
          = dictLookup "B"
              (⟨[("A", ⟨0, "ip"⟩), ("B", ⟨1, "ip2"⟩)],
                [("A", []), ("B", ["chat"])]⟩ : ServerState).connected_clients
        ∧ dictLookup "B" (handle_subscribe "A" (SubscribeData.str "news")
            ⟨[("A", ⟨0, "ip"⟩), ("B", ⟨1, "ip2"⟩)],
             [("A", []), ("B", ["chat"])]⟩).1.client_subscriptions
          = dictLookup "B"
              (⟨[("A", ⟨0, "ip"⟩), ("B", ⟨1, "ip2"⟩)],
                [("A", []), ("B", ["chat"])]⟩ : ServerState).client_subscriptions
        ∧ dictLookup "B" (handle_disconnect "A"
            ⟨[("A", ⟨0, "ip"⟩), ("B", ⟨1, "ip2"⟩)],
             [("A", []), ("B", ["chat"])]⟩).connected_clients
          = dictLookup "B"
              (⟨[("A", ⟨0, "ip"⟩), ("B", ⟨1, "ip2"⟩)],
                [("A", []), ("B", ["chat"])]⟩ : ServerState).connected_clients
        ∧ dictLookup "B" (handle_disconnect "A"
            ⟨[("A", ⟨0, "ip"⟩), ("B", ⟨1, "ip2"⟩)],
             [("A", []), ("B", ["chat"])]⟩).client_subscriptions
          = dictLookup "B"
              (⟨[("A", ⟨0, "ip"⟩), ("B", ⟨1, "ip2"⟩)],
                [("A", []), ("B", ["chat"])]⟩ : ServerState).client_subscriptions) :=
  ⟨by decide,
   handlers_touch_only_own_id
     ⟨[("A", ⟨0, "ip"⟩), ("B", ⟨1, "ip2"⟩)], [("A", []), ("B", ["chat"])]⟩
     "A" "B" (SubscribeData.str "news") (by decide)⟩

end Server
